import Mathlib

/-!
Verification of the session and transport lifecycle manager of the
obsidian-mcp-plugin repository.

The embedding follows `src/mcp-server.ts` (`MCPHttpServer.handleMCPRequest`,
the DELETE `/mcp` route, `attachTransportHandlers`, the `session-evicted`
subscriber and `stop`) and `src/utils/worker-manager.ts` (`WorkerManager`).
Mutable `Map` fields become association lists with JavaScript `Map`
semantics (`set` replaces in place, `delete` removes the unique entry,
iteration is in insertion order).  The `await` points that can throw
(`mcpServer.connect`, `transport.handleRequest`) are driven by boolean
oracles in an `Env` record; a throw is propagated to the surrounding
`try`/`catch` exactly as in the source.

`SessionManager` and `MCPServerPool` are imported by `mcp-server.ts` but
their source files are not part of the repository snapshot; the three
operations the router calls on them are modelled from the spec (see the
individual doc comments).  All routing decisions proved below are made by
code that is present in `src/mcp-server.ts` itself.
-/

namespace ObsidianMCP

/-- JavaScript `Map.set` on an association list: replace the entry in place
when the key is present, otherwise append at the end (insertion order). -/
def mapSet {α : Type} (m : List (String × α)) (k : String) (v : α) : List (String × α) :=
  match m with
  | [] => [(k, v)]
  | (k', v') :: rest => if k' == k then (k, v) :: rest else (k', v') :: mapSet rest k v

/-- JavaScript `Map.delete` on an association list: remove the (unique)
entry with the given key. -/
def mapDelete {α : Type} (m : List (String × α)) (k : String) : List (String × α) :=
  match m with
  | [] => []
  | (k', v') :: rest => if k' == k then rest else (k', v') :: mapDelete rest k

/-- The decoded body of a POST `/mcp` call: the JSON-RPC method together
with the optional `mcp-session-id` header (`handleMCPRequest` reads both). -/
structure Request where
  method : String
  sessionId : Option String
deriving DecidableEq

/-- `isInitializeRequest` from the MCP SDK (external to the repository):
recognises the protocol handshake request by its method. -/
def isInitializeRequest (r : Request) : Bool :=
  r.method == "initialize"

/-- The fast-path keepalive test of `handleMCPRequest`
(`request?.method === 'session/ping' || request?.method === 'status/ping'`). -/
def isPingMethod (m : String) : Bool :=
  m == "session/ping" || m == "status/ping"

/-- The environment of one `handleMCPRequest` call: the value `randomUUID()`
would return, the current time used for session activity stamps, and oracles
for the externally-determined outcomes of the awaited SDK calls:
whether `mcpServer.connect(transport)` throws, which protocol versions the
handler accepts during the internal compatibility initialize, and whether
`transport.handleRequest` on the original request throws. -/
structure Env where
  freshId : String
  now : Nat
  connectThrows : Bool
  initAccepts : String → Bool
  forwardThrows : Bool

/-- The mutable state of `MCPHttpServer` that the session lifecycle touches:
`transports` (session id ↦ channel id), the server pool's cached handlers
(`MCPServerPool`, keyed by session id), the `SessionManager` records
(session id ↦ last-activity time), and `connectionCount`.  `nextChannelId`,
`channelsCreated` and `handlersCreated` instrument object construction
(`new StreamableHTTPServerTransport`, handler creation in the pool), and
`closedChannels` records every `transport.close()` call. -/
structure SrvState where
  transports : List (String × Nat)
  serverPool : List String
  sessions : List (String × Nat)
  connectionCount : Int
  nextChannelId : Nat
  channelsCreated : Nat
  handlersCreated : Nat
  closedChannels : List Nat
deriving DecidableEq

/-- The server state at construction time: empty registries, zero counter. -/
def SrvState.initial : SrvState :=
  { transports := [], serverPool := [], sessions := [], connectionCount := 0,
    nextChannelId := 0, channelsCreated := 0, handlersCreated := 0, closedChannels := [] }

/-- Modelled from the spec: `SessionManager.touchSession` (§4.1 `touch(id)`:
updates the last-activity timestamp; no-op, not an error, if the session
does not exist).  The file `session-manager.ts` is not in the snapshot. -/
def touchSession (sessions : List (String × Nat)) (id : String) (now : Nat) : List (String × Nat) :=
  if (sessions.lookup id).isSome then mapSet sessions id now else sessions

/-- Modelled from the spec: `SessionManager.getOrCreateSession` (§4.1
`createOrGet(id)`: idempotent; returns the existing record if present, else
creates one).  The file `session-manager.ts` is not in the snapshot. -/
def getOrCreateSession (sessions : List (String × Nat)) (id : String) (now : Nat) : List (String × Nat) :=
  if (sessions.lookup id).isSome then sessions else sessions ++ [(id, now)]

/-- Modelled from the spec: `MCPServerPool.getOrCreateServer` (§4.3
`getOrCreate(id)`: returns the cached handler for `id`, constructing and
registering one if absent).  The file `mcp-server-pool.ts` is not in the
snapshot; `handlersCreated` counts the constructions. -/
def getOrCreateServer (st : SrvState) (id : String) : SrvState :=
  if st.serverPool.contains id then st
  else { st with serverPool := st.serverPool ++ [id],
                 handlersCreated := st.handlersCreated + 1 }

/-- The result of one routing branch of `handleMCPRequest`: the state after
the branch, `effectiveSessionId`, the bound transport (its channel id) if any,
the `requireInitializeNotice` flag, and whether an awaited call threw
(propagating to the outer `catch`). -/
structure RoutingStep where
  state : SrvState
  effectiveSessionId : String
  transport : Option Nat
  requireInitializeNotice : Bool
  threw : Bool
deriving DecidableEq

/-- `new StreamableHTTPServerTransport(...)`: constructs a fresh channel
object (instrumented by `channelsCreated`). -/
def advanceChannel (st : SrvState) : SrvState :=
  { st with nextChannelId := st.nextChannelId + 1,
            channelsCreated := st.channelsCreated + 1 }

/-- `this.transports.set(effectiveSessionId, transport); attachTransportHandlers(...);
this.connectionCount++` — binding a freshly connected transport. -/
def bindTransport (st : SrvState) (s : String) (cid : Nat) : SrvState :=
  { st with transports := mapSet st.transports s cid,
            connectionCount := st.connectionCount + 1 }

/-- The shared tail of every transport-creating branch of `handleMCPRequest`:
construct the transport, `await mcpServer.connect(transport)` (which may
throw, leaving the transport unbound), then store it, attach the lifecycle
handlers and increment the connection counter. -/
def openChannel (st : SrvState) (s : String) (env : Env) (requireInit : Bool) : RoutingStep :=
  let cid := st.nextChannelId
  let st1 := advanceChannel st
  if env.connectThrows then
    { state := st1, effectiveSessionId := s, transport := none,
      requireInitializeNotice := false, threw := true }
  else
    { state := bindTransport st1 s cid, effectiveSessionId := s, transport := some cid,
      requireInitializeNotice := requireInit, threw := false }

/-- The concurrent-mode branch ladder of `handleMCPRequest`
(`if (this.mcpServerPool) { ... }`, lines 570–649 of `mcp-server.ts`):
session id with live transport → reuse and touch; session id without
transport → recreate on initialize, else bind a new transport and flag
`requireInitializeNotice`; no session id → fresh id, with a session record
created only on the initialize branch. -/
def routeConcurrent (st : SrvState) (req : Request) (env : Env) : RoutingStep :=
  match req.sessionId with
  | some s =>
    match st.transports.lookup s with
    | some cid =>
      let st1 := getOrCreateServer st s
      let st2 := { st1 with sessions := touchSession st1.sessions s env.now }
      { state := st2, effectiveSessionId := s, transport := some cid,
        requireInitializeNotice := false, threw := false }
    | none =>
      if isInitializeRequest req then
        let st1 := { st with sessions := getOrCreateSession st.sessions s env.now }
        let st2 := getOrCreateServer st1 s
        openChannel st2 s env false
      else
        let st1 := getOrCreateServer st s
        openChannel st1 s env true
  | none =>
    if isInitializeRequest req then
      let s := env.freshId
      let st1 := getOrCreateServer st s
      let r := openChannel st1 s env false
      if r.threw then r
      else { r with state := { r.state with
               sessions := getOrCreateSession r.state.sessions s env.now } }
    else
      let s := env.freshId
      let st1 := getOrCreateServer st s
      openChannel st1 s env true

/-- The single-server branch ladder of `handleMCPRequest` (the `else` of
`if (this.mcpServerPool)`, lines 650–699): same shape, but there is no
server pool and `this.sessionManager` is absent, so the guarded
`touchSession`/`getOrCreateSession` calls are no-ops. -/
def routeSingle (st : SrvState) (req : Request) (env : Env) : RoutingStep :=
  match req.sessionId with
  | some s =>
    match st.transports.lookup s with
    | some cid =>
      { state := st, effectiveSessionId := s, transport := some cid,
        requireInitializeNotice := false, threw := false }
    | none =>
      if isInitializeRequest req then openChannel st s env false
      else openChannel st s env true
  | none =>
    if isInitializeRequest req then openChannel st env.freshId env false
    else openChannel st env.freshId env true

/-- The fixed protocol-version list of the compatibility initialize
(`const versionsToTry = ['2025-06-18', '2024-11-05', '1.0']`). -/
def versionsToTry : List String :=
  ["2025-06-18", "2024-11-05", "1.0"]

/-- The `for (const ver of versionsToTry)` loop: each attempt sends a
synthesized initialize through the transport with a `createNullRes()` sink;
a successful attempt breaks out of the loop.  Returns the versions attempted
(in order) and whether one succeeded (`initOk`). -/
def compatLoop (accepts : String → Bool) : List String → List String × Bool
  | [] => ([], false)
  | v :: rest =>
    if accepts v then ([v], true)
    else
      let r := compatLoop accepts rest
      (v :: r.1, r.2)

/-- The HTTP response that `handleMCPRequest` produces, one constructor per
`res`-writing site: the keepalive reply, dispatch of the original request
through `transport.handleRequest`, the 400 "Server not initialized" error
(carrying the session id in the `Mcp-Session-Id` header and in
`error.data.sessionId`), the defensive -32001 "No active transport" reply,
and the 500 reply of the outer `catch`. -/
inductive Outcome where
  | pingOk (sessionId : Option String)
  | forwarded (sessionId : String)
  | notInitialized (headerSessionId : String) (payloadSessionId : String)
  | noActiveTransport (sessionId : Option String)
  | internalError
deriving DecidableEq

/-- Lines 744–778 of `mcp-server.ts`: after the compatibility step, reply
with the "not initialized" error if the flag is still set on a non-handshake
call, fall back to the defensive "no active transport" error when no
transport was obtained, and otherwise forward the original request through
the transport (whose throw is converted to a 500 by the outer `catch`).
The boolean records whether the original request was forwarded. -/
def finishRequest (requireInit : Bool) (isInit : Bool) (transport : Option Nat)
    (effId : String) (env : Env) : Outcome × Bool :=
  if requireInit && !isInit then (.notInitialized effId effId, false)
  else
    match transport with
    | none => (.noActiveTransport (some effId), false)
    | some _ =>
      ((if env.forwardThrows then Outcome.internalError else Outcome.forwarded effId), true)

/-- The observable result of one `handleMCPRequest` call: the new server
state, the HTTP response, the protocol versions attempted by the
compatibility initialize, whether one of them succeeded, and whether the
original request was forwarded through the transport. -/
structure RouteResult where
  state : SrvState
  outcome : Outcome
  compatVersionsTried : List String
  compatOk : Bool
  forwardedOriginal : Bool
deriving DecidableEq

/-- The session-activity update of the keepalive fast path (lines 498–501
of `mcp-server.ts`): touch the session when an identifier is present and the
session manager exists (concurrent mode). -/
def pingSessions (concurrent : Bool) (sessions : List (String × Nat))
    (sid : Option String) (now : Nat) : List (String × Nat) :=
  match sid with
  | some s => if concurrent then touchSession sessions s now else sessions
  | none => sessions

/-- `MCPHttpServer.handleMCPRequest` (lines 490–793 of `mcp-server.ts`):
the keepalive fast path, the mode-dependent routing ladder, the internal
compatibility initialize for freshly created transports on non-handshake
calls (fail-open: the flag is cleared whether or not a version succeeded),
and the finishing stage.  `concurrent` states whether the server was
constructed with `enableConcurrentSessions` (pool and session manager
present). -/
def handleMCPRequest (concurrent : Bool) (st : SrvState) (req : Request) (env : Env) :
    RouteResult :=
  if isPingMethod req.method then
    { state := { st with sessions := pingSessions concurrent st.sessions req.sessionId env.now },
      outcome := .pingOk req.sessionId,
      compatVersionsTried := [], compatOk := false, forwardedOriginal := false }
  else
    let step := if concurrent then routeConcurrent st req env else routeSingle st req env
    if step.threw then
      { state := step.state, outcome := .internalError,
        compatVersionsTried := [], compatOk := false, forwardedOriginal := false }
    else if step.requireInitializeNotice && step.transport.isSome
            && !(isInitializeRequest req) then
      let c := compatLoop env.initAccepts versionsToTry
      let f := finishRequest false (isInitializeRequest req) step.transport
                 step.effectiveSessionId env
      { state := step.state, outcome := f.1,
        compatVersionsTried := c.1, compatOk := c.2, forwardedOriginal := f.2 }
    else
      let f := finishRequest step.requireInitializeNotice (isInitializeRequest req)
                 step.transport step.effectiveSessionId env
      { state := step.state, outcome := f.1,
        compatVersionsTried := [], compatOk := false, forwardedOriginal := f.2 }

/-- Outcome of the DELETE `/mcp` route. -/
inductive DeleteOutcome where
  | closed
  | notFound
deriving DecidableEq

/-- The DELETE `/mcp` route (lines 474–487 of `mcp-server.ts`): when a
session id is supplied and a transport is registered for it, close it,
remove the mapping and decrement the connection counter (clamped at zero);
otherwise answer 404 "Session not found". -/
def handleDeleteSession (st : SrvState) (sessionId : Option String) :
    SrvState × DeleteOutcome :=
  match sessionId with
  | some s =>
    match st.transports.lookup s with
    | some cid =>
      ({ st with transports := mapDelete st.transports s,
                 connectionCount := max 0 (st.connectionCount - 1),
                 closedChannels := cid :: st.closedChannels }, .closed)
    | none => (st, .notFound)
  | none => (st, .notFound)

/-- The `close` handler installed by `attachTransportHandlers`: remove the
mapping and decrement the counter (clamped) if the session is still bound. -/
def onTransportClosed (st : SrvState) (s : String) : SrvState :=
  if (st.transports.lookup s).isSome then
    { st with transports := mapDelete st.transports s,
              connectionCount := max 0 (st.connectionCount - 1) }
  else st

/-- The `error` handler installed by `attachTransportHandlers`: same cleanup
as the `close` handler. -/
def onTransportError (st : SrvState) (s : String) : SrvState :=
  if (st.transports.lookup s).isSome then
    { st with transports := mapDelete st.transports s,
              connectionCount := max 0 (st.connectionCount - 1) }
  else st

/-- The `session-evicted` subscriber (lines 107–116 of `mcp-server.ts`):
when the evicted session still has a transport, close it, remove the mapping
and decrement the counter (clamped). -/
def onSessionEvicted (st : SrvState) (s : String) : SrvState :=
  match st.transports.lookup s with
  | some cid =>
    { st with transports := mapDelete st.transports s,
              connectionCount := max 0 (st.connectionCount - 1),
              closedChannels := cid :: st.closedChannels }
  | none => st

/-- `MCPHttpServer.stop` (lines 872–884): close every live transport, clear
the registry and reset the connection counter to zero. -/
def stopServer (st : SrvState) : SrvState :=
  { st with closedChannels := st.transports.map Prod.snd ++ st.closedChannels,
            transports := [], connectionCount := 0 }

/-- One externally triggered event on the server state: an HTTP request, an
explicit DELETE, a transport close/error notification, a session eviction,
or server stop. -/
inductive SrvEvent where
  | request (concurrent : Bool) (req : Request) (env : Env)
  | deleteSession (sessionId : Option String)
  | transportClosed (s : String)
  | transportError (s : String)
  | sessionEvicted (s : String)
  | stop

/-- Apply one event to the server state. -/
def applyEvent (st : SrvState) (e : SrvEvent) : SrvState :=
  match e with
  | .request c r env => (handleMCPRequest c st r env).state
  | .deleteSession s => (handleDeleteSession st s).1
  | .transportClosed s => onTransportClosed st s
  | .transportError s => onTransportError st s
  | .sessionEvicted s => onSessionEvicted st s
  | .stop => stopServer st

/-- Apply a sequence of events in order. -/
def applyEvents (st : SrvState) : List SrvEvent → SrvState
  | [] => st
  | e :: es => applyEvents (applyEvent st e) es

/-- A unit of work submitted to `WorkerManager.submitTask`. -/
structure WorkerTask where
  id : String
  sessionId : String
deriving DecidableEq

/-- One delivery of a completion for a work item: the task id, whether it
was a success (`message.type === 'result'`), and whether it came from the
timeout path. -/
structure WCompletion where
  taskId : String
  success : Bool
  viaTimeout : Bool
deriving DecidableEq

/-- The mutable state of `WorkerManager`: `workers` (session ids with a live
worker, in creation order), `pendingTasks` (task id ↦ originating session id,
standing in for the stored completion callback), and the log of every
invocation of a stored completion callback or timeout rejection. -/
structure WMState where
  workers : List String
  pendingTasks : List (String × String)
  completions : List WCompletion
deriving DecidableEq

/-- A fresh `WorkerManager`. -/
def WMState.initial : WMState :=
  { workers := [], pendingTasks := [], completions := [] }

/-- `WorkerManager.getWorker`: create the session's worker if absent. -/
def getWorker (st : WMState) (sessionId : String) : WMState :=
  if st.workers.contains sessionId then st
  else { st with workers := st.workers ++ [sessionId] }

/-- `WorkerManager.submitTask` (lines 69–101 of `worker-manager.ts`): get or
create the session's worker, store the completion callback under the task id
and post the task (the 30-second timeout is a separate `timeoutFires` event). -/
def submitTask (st : WMState) (task : WorkerTask) : WMState :=
  let st1 := getWorker st task.sessionId
  { st1 with pendingTasks := mapSet st1.pendingTasks task.id task.sessionId }

/-- The `type` field of a worker message. -/
inductive WMessageType where
  | ready
  | result
  | error
deriving DecidableEq

/-- A message received from a worker thread. -/
structure WMessage where
  mType : WMessageType
  id : String
deriving DecidableEq

/-- `WorkerManager.handleWorkerMessage` (lines 106–126): ignore `ready`;
for a message whose id has a pending callback, remove the entry and invoke
the callback with `success = (message.type === 'result')`. -/
def handleWorkerMessage (st : WMState) (msg : WMessage) : WMState :=
  if msg.mType = WMessageType.ready then st
  else if (st.pendingTasks.lookup msg.id).isSome then
    { st with pendingTasks := mapDelete st.pendingTasks msg.id,
              completions := st.completions
                ++ [{ taskId := msg.id, success := msg.mType = WMessageType.result,
                      viaTimeout := false }] }
  else st

/-- `WorkerManager.handleWorkerError` (lines 131–144): invoke the stored
callback of every entry of `pendingTasks` with a failure (the loop iterates
the whole map, and does not delete the entries), then drop the session's
worker. -/
def handleWorkerError (st : WMState) (sessionId : String) : WMState :=
  { st with completions := st.completions
              ++ st.pendingTasks.map
                   (fun p => { taskId := p.1, success := false, viaTimeout := false }),
            workers := st.workers.erase sessionId }

/-- The `setTimeout` callback installed by `submitTask` (lines 94–99): when
it fires and the task is still pending, delete the entry and reject the
promise with a timeout error. -/
def fireTaskTimeout (st : WMState) (taskId : String) : WMState :=
  if (st.pendingTasks.lookup taskId).isSome then
    { st with pendingTasks := mapDelete st.pendingTasks taskId,
              completions := st.completions
                ++ [{ taskId := taskId, success := false, viaTimeout := true }] }
  else st

/-- `WorkerManager.terminateWorker` (lines 149–156): terminate and drop the
session's worker; `pendingTasks` is not touched. -/
def terminateWorker (st : WMState) (sessionId : String) : WMState :=
  { st with workers := st.workers.erase sessionId }

/-- `WorkerManager.terminateAll` (lines 161–172): terminate every worker and
clear both maps. -/
def terminateAll (st : WMState) : WMState :=
  { st with workers := [], pendingTasks := [] }

/-- How many completions have been delivered for a given task id. -/
def completionsFor (st : WMState) (taskId : String) : Nat :=
  (st.completions.filter (fun c => c.taskId == taskId)).length

/-- A benign environment used by concrete scenarios: a fixed fresh id, no
SDK call throws, and the handler accepts the protocol version 2024-11-05. -/
def benignEnv : Env :=
  { freshId := "W", now := 3, connectThrows := false,
    initAccepts := fun v => v == "2024-11-05", forwardThrows := false }

/-- An environment in which every compatibility-initialize attempt fails. -/
def allFailEnv : Env :=
  { freshId := "F", now := 5, connectThrows := false,
    initAccepts := fun _ => false, forwardThrows := false }

/-- A concrete server state with one bound session `"A"` on channel 7. -/
def oneSessionState : SrvState :=
  { SrvState.initial with
      transports := [("A", 7)],
      connectionCount := 1,
      nextChannelId := 8,
      channelsCreated := 1 }

/-- `oneSessionState` after the DELETE `/mcp` route closed session `"A"`. -/
def oneSessionStateClosed : SrvState :=
  { oneSessionState with
      transports := mapDelete oneSessionState.transports "A",
      connectionCount := max 0 (oneSessionState.connectionCount - 1),
      closedChannels := 7 :: oneSessionState.closedChannels }

theorem lookup_eq_none_of_not_mem_keys {α : Type} (m : List (String × α)) (k : String)
    (h : k ∉ m.map Prod.fst) : m.lookup k = none := by
  induction m with
  | nil => simp [List.lookup]
  | cons p rest ih =>
    obtain ⟨k', v'⟩ := p
    simp only [List.map_cons, List.mem_cons, not_or] at h
    have hb : (k == k') = false := beq_eq_false_iff_ne.mpr h.1
    simp [List.lookup, hb, ih h.2]

theorem lookup_mapSet_self {α : Type} (m : List (String × α)) (k : String) (v : α) :
    (mapSet m k v).lookup k = some v := by
  induction m with
  | nil => simp [mapSet, List.lookup]
  | cons p rest ih =>
    obtain ⟨k', v'⟩ := p
    by_cases h : k' == k
    · simp [mapSet, h, List.lookup]
    · have hne : k' ≠ k := by simpa using h
      have h' : (k == k') = false := beq_eq_false_iff_ne.mpr (Ne.symm hne)
      simp [mapSet, h, List.lookup, h', ih]

theorem mapSet_keys_of_lookup_isSome {α : Type} (m : List (String × α)) (k : String) (v : α)
    (h : (m.lookup k).isSome) :
    (mapSet m k v).map Prod.fst = m.map Prod.fst := by
  induction m with
  | nil => simp [List.lookup] at h
  | cons p rest ih =>
    obtain ⟨k', v'⟩ := p
    by_cases hk : k' == k
    · have : k' = k := by simpa using hk
      simp [mapSet, hk, this]
    · have hne : k' ≠ k := by simpa using hk
      have hk' : (k == k') = false := beq_eq_false_iff_ne.mpr (Ne.symm hne)
      have hstep : List.lookup k ((k', v') :: rest) = List.lookup k rest := by
        simp [List.lookup, hk']
      rw [hstep] at h
      simp [mapSet, hk, ih h]

theorem lookup_mapDelete_of_nodup {α : Type} (m : List (String × α)) (k : String)
    (h : (m.map Prod.fst).Nodup) :
    (mapDelete m k).lookup k = none := by
  induction m with
  | nil => simp [mapDelete, List.lookup]
  | cons p rest ih =>
    obtain ⟨k', v'⟩ := p
    simp only [List.map_cons, List.nodup_cons] at h
    by_cases hk : k' == k
    · have hkk : k' = k := by simpa using hk
      subst hkk
      simp only [mapDelete, hk, if_pos]
      exact lookup_eq_none_of_not_mem_keys rest k' h.1
    · have hne : k' ≠ k := by simpa using hk
      have hk' : (k == k') = false := beq_eq_false_iff_ne.mpr (Ne.symm hne)
      simp [mapDelete, hk, List.lookup, hk', ih h.2]

theorem compatLoop_eq (accepts : String → Bool) (l : List String) :
    compatLoop accepts l
      = (l.takeWhile (fun v => !accepts v) ++ (l.dropWhile (fun v => !accepts v)).take 1,
         l.any accepts) := by
  induction l with
  | nil => simp [compatLoop]
  | cons v rest ih =>
    cases h : accepts v <;> simp [compatLoop, h, ih]

theorem getOrCreateServer_mem (st : SrvState) (id : String) :
    id ∈ (getOrCreateServer st id).serverPool := by
  unfold getOrCreateServer
  split
  · next h => simpa using h
  · simp

theorem getOrCreateServer_of_mem (st : SrvState) (id : String) (h : id ∈ st.serverPool) :
    getOrCreateServer st id = st := by
  unfold getOrCreateServer
  rw [if_pos (by simpa using h)]

theorem getOrCreateServer_frame (st : SrvState) (id : String) :
    (getOrCreateServer st id).sessions = st.sessions
    ∧ (getOrCreateServer st id).transports = st.transports
    ∧ (getOrCreateServer st id).nextChannelId = st.nextChannelId
    ∧ (getOrCreateServer st id).channelsCreated = st.channelsCreated
    ∧ (getOrCreateServer st id).connectionCount = st.connectionCount := by
  unfold getOrCreateServer
  split <;> simp

theorem openChannel_ok (st : SrvState) (s : String) (env : Env) (ri : Bool)
    (hconn : env.connectThrows = false) :
    openChannel st s env ri
      = { state := bindTransport (advanceChannel st) s st.nextChannelId,
          effectiveSessionId := s, transport := some st.nextChannelId,
          requireInitializeNotice := ri, threw := false } := by
  simp [openChannel, hconn]

theorem compatLoop_ne_nil (accepts : String → Bool) (v : String) (rest : List String) :
    (compatLoop accepts (v :: rest)).1 ≠ [] := by
  cases h : accepts v <;> simp [compatLoop, h]

/-- C1: whenever `handleMCPRequest` has just created and bound a new
transport for a non-handshake call (every branch that sets
`requireInitializeNotice`), it runs the internal compatibility initialize:
the protocol versions of `versionsToTry` are attempted in order, stopping at
the first one the handler accepts; `initOk` records whether any succeeded;
and in every case — including all versions failing — the original request is
still forwarded through the transport and the response never reports the
compatibility failure (it is the forward's own outcome, independent of which
versions were accepted). -/
theorem c1_compat_handshake_fail_open (concurrent : Bool) (st : SrvState) (req : Request)
    (env : Env)
    (hping : isPingMethod req.method = false)
    (hinit : isInitializeRequest req = false)
    (hconn : env.connectThrows = false)
    (horphan : ∀ s, req.sessionId = some s → st.transports.lookup s = none) :
    (handleMCPRequest concurrent st req env).compatVersionsTried
        = versionsToTry.takeWhile (fun v => !env.initAccepts v)
          ++ (versionsToTry.dropWhile (fun v => !env.initAccepts v)).take 1
    ∧ (handleMCPRequest concurrent st req env).compatOk = versionsToTry.any env.initAccepts
    ∧ (handleMCPRequest concurrent st req env).forwardedOriginal = true
    ∧ (handleMCPRequest concurrent st req env).outcome
        = (if env.forwardThrows then Outcome.internalError
           else Outcome.forwarded (req.sessionId.getD env.freshId)) := by
  have hcompat := compatLoop_eq env.initAccepts versionsToTry
  cases hsid : req.sessionId with
  | some s =>
    have hlk := horphan s hsid
    cases concurrent <;>
      simp [handleMCPRequest, hping, hinit, routeConcurrent, routeSingle, hsid, hlk,
        openChannel_ok, hconn, finishRequest, hcompat]
  | none =>
    cases concurrent <;>
      simp [handleMCPRequest, hping, hinit, routeConcurrent, routeSingle, hsid,
        openChannel_ok, hconn, finishRequest, hcompat]

/-- C1 witness: a concrete non-handshake call with no session header against
a handler that accepts protocol version 2024-11-05. -/
theorem c1_compat_handshake_fail_open_witness :
    (handleMCPRequest true SrvState.initial ⟨"tools/list", none⟩ benignEnv).compatVersionsTried
        = versionsToTry.takeWhile (fun v => !benignEnv.initAccepts v)
          ++ (versionsToTry.dropWhile (fun v => !benignEnv.initAccepts v)).take 1
    ∧ (handleMCPRequest true SrvState.initial ⟨"tools/list", none⟩ benignEnv).compatOk
        = versionsToTry.any benignEnv.initAccepts
    ∧ (handleMCPRequest true SrvState.initial ⟨"tools/list", none⟩ benignEnv).forwardedOriginal
        = true
    ∧ (handleMCPRequest true SrvState.initial ⟨"tools/list", none⟩ benignEnv).outcome
        = (if benignEnv.forwardThrows then Outcome.internalError
           else Outcome.forwarded ((none : Option String).getD benignEnv.freshId)) :=
  c1_compat_handshake_fail_open true SrvState.initial ⟨"tools/list", none⟩ benignEnv
    rfl rfl rfl (fun _ h => nomatch h)

/-- C7 (failing input): with tasks `t1` of session `A` and `t2` of session
`B` pending, a worker error for session `A` delivers a failure completion to
session `B`'s task `t2` as well, because `handleWorkerError` iterates the
whole `pendingTasks` map.  Worker failures are therefore not isolated per
session. -/
theorem c7_worker_error_crosses_sessions :
    (handleWorkerError
        (submitTask (submitTask WMState.initial ⟨"t1", "A"⟩) ⟨"t2", "B"⟩)
        "A").completions.filter (fun c => c.taskId == "t2")
      = [{ taskId := "t2", success := false, viaTimeout := false }] := by
  decide

/-- C8 (failing input): submit `t1` for session `A`, let `A`'s worker error
(first completion, delivered by `handleWorkerError`, which does not remove
the entry), then deliver a late `result` message for `t1`: the stored
completion callback is invoked a second time, so two completions are
delivered for one work item. -/
theorem c8_duplicate_completion_delivery :
    completionsFor
        (handleWorkerMessage
          (handleWorkerError (submitTask WMState.initial ⟨"t1", "A"⟩) "A")
          ⟨WMessageType.result, "t1"⟩)
        "t1" = 2 := by
  decide

/-- C2 counterexample: a non-handshake call bearing the never-seen session
identifier `"S9"` (concurrent mode, empty server state).  The router binds a
new transport for `"S9"`, but does **not** create a Session record for it:
the orphaned-session branch of `handleMCPRequest` (lines 599–610 of
`mcp-server.ts`) never calls `sessionManager.getOrCreateSession`, so the
claim that the router "creates a Session record for that identifier" is
false at this input. -/
theorem c2_no_session_record_counterexample :
    (handleMCPRequest true SrvState.initial ⟨"tools/list", some "S9"⟩
        allFailEnv).state.sessions.lookup "S9" = none
    ∧ ((handleMCPRequest true SrvState.initial ⟨"tools/list", some "S9"⟩
        allFailEnv).state.transports.lookup "S9").isSome = true := by
  decide

/-- C2 (amended): for every non-handshake request bearing a session
identifier with no live channel, the router leaves the Session registry
unchanged (it does not create a Session record), gets-or-creates the Handler
and — when `connect` does not throw — binds a new Channel and runs the
compatibility handshake instead of dispatching the original request directly
through an un-initialized handler; and under every compatibility-handshake
outcome, including all attempted versions failing and thrown SDK calls, the
final HTTP response is a well-formed reply (the forward or the 500 of the
outer catch), never an unhandled exception. -/
theorem c2_orphan_rebind_amended (st : SrvState) (s : String) (req : Request) (env : Env)
    (hsid : req.sessionId = some s)
    (hlk : st.transports.lookup s = none)
    (hping : isPingMethod req.method = false)
    (hinit : isInitializeRequest req = false) :
    (handleMCPRequest true st req env).state.sessions = st.sessions
    ∧ s ∈ (handleMCPRequest true st req env).state.serverPool
    ∧ (env.connectThrows = false →
        (handleMCPRequest true st req env).state.transports.lookup s
            = some st.nextChannelId
        ∧ (handleMCPRequest true st req env).compatVersionsTried ≠ []
        ∧ (handleMCPRequest true st req env).forwardedOriginal = true)
    ∧ ((handleMCPRequest true st req env).outcome = Outcome.forwarded s
       ∨ (handleMCPRequest true st req env).outcome = Outcome.internalError) := by
  have hframe := getOrCreateServer_frame st s
  have hmem := getOrCreateServer_mem st s
  cases hconn : env.connectThrows with
  | true =>
    simp [handleMCPRequest, hping, hinit, routeConcurrent, hsid, hlk, openChannel, hconn,
      advanceChannel, hframe.1, hconn, hmem]
  | false =>
    have hres : handleMCPRequest true st req env
        = { state := bindTransport (advanceChannel (getOrCreateServer st s)) s
              (getOrCreateServer st s).nextChannelId,
            outcome := if env.forwardThrows then .internalError else .forwarded s,
            compatVersionsTried := (compatLoop env.initAccepts versionsToTry).1,
            compatOk := (compatLoop env.initAccepts versionsToTry).2,
            forwardedOriginal := true } := by
      simp [handleMCPRequest, hping, hinit, routeConcurrent, hsid, hlk,
        openChannel_ok, hconn, finishRequest]
    rw [hres]
    refine ⟨?_, ?_, ?_, ?_⟩
    · simp [bindTransport, advanceChannel, hframe.1]
    · simp [bindTransport, advanceChannel, hmem]
    · intro _
      refine ⟨?_, ?_, rfl⟩
      · simp [bindTransport, advanceChannel, lookup_mapSet_self, hframe.2.2.1]
      · simpa [versionsToTry] using compatLoop_ne_nil env.initAccepts "2025-06-18"
          ["2024-11-05", "1.0"]
    · cases env.forwardThrows <;> simp

/-- C2 witness for the amended theorem: the concrete orphaned call of the
counterexample, with every compatibility version failing. -/
theorem c2_orphan_rebind_amended_witness :
    (handleMCPRequest true SrvState.initial ⟨"tools/list", some "S9"⟩
        allFailEnv).state.sessions = SrvState.initial.sessions
    ∧ "S9" ∈ (handleMCPRequest true SrvState.initial ⟨"tools/list", some "S9"⟩
        allFailEnv).state.serverPool
    ∧ (allFailEnv.connectThrows = false →
        (handleMCPRequest true SrvState.initial ⟨"tools/list", some "S9"⟩
            allFailEnv).state.transports.lookup "S9" = some SrvState.initial.nextChannelId
        ∧ (handleMCPRequest true SrvState.initial ⟨"tools/list", some "S9"⟩
            allFailEnv).compatVersionsTried ≠ []
        ∧ (handleMCPRequest true SrvState.initial ⟨"tools/list", some "S9"⟩
            allFailEnv).forwardedOriginal = true)
    ∧ ((handleMCPRequest true SrvState.initial ⟨"tools/list", some "S9"⟩
          allFailEnv).outcome = Outcome.forwarded "S9"
       ∨ (handleMCPRequest true SrvState.initial ⟨"tools/list", some "S9"⟩
          allFailEnv).outcome = Outcome.internalError) :=
  c2_orphan_rebind_amended SrvState.initial "S9" ⟨"tools/list", some "S9"⟩ allFailEnv
    rfl rfl rfl rfl

/-- C3: a request bearing a session identifier with a live channel is
dispatched through that existing channel and its existing handler: the
transport map and both construction counters (channels, handlers) are left
unchanged, the session is touched, and the outcome is the forward through
the reused transport.  In particular (second part), a handshake with
identifier `"S1"` followed by a second call bearing `"S1"` performs exactly
one channel construction and one handler construction in total. -/
theorem c3_live_channel_reuse (st : SrvState) (s : String) (cid : Nat) (req : Request)
    (env : Env)
    (hsid : req.sessionId = some s)
    (hlk : st.transports.lookup s = some cid)
    (hpool : s ∈ st.serverPool)
    (hping : isPingMethod req.method = false) :
    ((handleMCPRequest true st req env).state.transports = st.transports
    ∧ (handleMCPRequest true st req env).state.channelsCreated = st.channelsCreated
    ∧ (handleMCPRequest true st req env).state.handlersCreated = st.handlersCreated
    ∧ (handleMCPRequest true st req env).state.serverPool = st.serverPool
    ∧ (handleMCPRequest true st req env).state.sessions = touchSession st.sessions s env.now
    ∧ (handleMCPRequest true st req env).outcome
        = (if env.forwardThrows then Outcome.internalError else Outcome.forwarded s))
    ∧ ((handleMCPRequest true
          (handleMCPRequest true SrvState.initial ⟨"initialize", some "S1"⟩ benignEnv).state
          ⟨"tools/list", some "S1"⟩ benignEnv).state.channelsCreated = 1
       ∧ (handleMCPRequest true
          (handleMCPRequest true SrvState.initial ⟨"initialize", some "S1"⟩ benignEnv).state
          ⟨"tools/list", some "S1"⟩ benignEnv).state.handlersCreated = 1) := by
  constructor
  · have hsrv := getOrCreateServer_of_mem st s hpool
    simp [handleMCPRequest, hping, routeConcurrent, hsid, hlk, hsrv, finishRequest]
  · constructor <;> decide

/-- C3 witness: the concrete two-call scenario with identifier `"S1"`. -/
theorem c3_live_channel_reuse_witness :
    let st1 := (handleMCPRequest true SrvState.initial ⟨"initialize", some "S1"⟩
        benignEnv).state
    ((handleMCPRequest true st1 ⟨"tools/list", some "S1"⟩ benignEnv).state.transports
        = st1.transports
    ∧ (handleMCPRequest true st1 ⟨"tools/list", some "S1"⟩
        benignEnv).state.channelsCreated = st1.channelsCreated
    ∧ (handleMCPRequest true st1 ⟨"tools/list", some "S1"⟩
        benignEnv).state.handlersCreated = st1.handlersCreated
    ∧ (handleMCPRequest true st1 ⟨"tools/list", some "S1"⟩
        benignEnv).state.serverPool = st1.serverPool
    ∧ (handleMCPRequest true st1 ⟨"tools/list", some "S1"⟩
        benignEnv).state.sessions = touchSession st1.sessions "S1" benignEnv.now
    ∧ (handleMCPRequest true st1 ⟨"tools/list", some "S1"⟩ benignEnv).outcome
        = (if benignEnv.forwardThrows then Outcome.internalError
           else Outcome.forwarded "S1")) := by
  exact ((c3_live_channel_reuse _ "S1" 0 ⟨"tools/list", some "S1"⟩ benignEnv
    rfl (by decide) (by decide) rfl).1)

/-- C4: a keepalive ping returns immediately: the session is touched when an
identifier is present (and the session manager exists), and nothing else of
the server state changes — in particular no Session, Channel or Handler
entry is created, and the Transport Registry is not consulted (the result is
the same for every value `T` of the transport map, which is also left
unchanged).  The final conjunct shows `touchSession` never adds a key. -/
theorem c4_ping_fast_path (concurrent : Bool) (st : SrvState) (T : List (String × Nat))
    (req : Request) (env : Env)
    (hping : isPingMethod req.method = true) :
    handleMCPRequest concurrent { st with transports := T } req env
      = { state :=
            { st with
                transports := T,
                sessions := pingSessions concurrent st.sessions req.sessionId env.now },
          outcome := .pingOk req.sessionId,
          compatVersionsTried := [],
          compatOk := false,
          forwardedOriginal := false }
    ∧ (∀ (sess : List (String × Nat)) (s : String) (n : Nat),
        (touchSession sess s n).map Prod.fst = sess.map Prod.fst)
    ∧ (∀ (sess : List (String × Nat)) (sid : Option String) (c : Bool) (n : Nat),
        (pingSessions c sess sid n).map Prod.fst = sess.map Prod.fst) := by
  have htouch : ∀ (sess : List (String × Nat)) (s : String) (n : Nat),
      (touchSession sess s n).map Prod.fst = sess.map Prod.fst := by
    intro sess s n
    unfold touchSession
    split
    · next h => exact mapSet_keys_of_lookup_isSome sess s n h
    · rfl
  refine ⟨?_, htouch, ?_⟩
  · simp [handleMCPRequest, hping, pingSessions]
  · intro sess sid c n
    cases sid <;> cases c <;> simp [pingSessions, htouch]

/-- C4 witness: a concrete `session/ping` bearing session id `"S1"` against
a state whose transport map is empty. -/
theorem c4_ping_fast_path_witness :
    handleMCPRequest true { SrvState.initial with transports := [] }
        ⟨"session/ping", some "S1"⟩ benignEnv
      = { state :=
            { SrvState.initial with
                transports := [],
                sessions := pingSessions true SrvState.initial.sessions (some "S1")
                  benignEnv.now },
          outcome := .pingOk (some "S1"),
          compatVersionsTried := [],
          compatOk := false,
          forwardedOriginal := false }
    ∧ (∀ (sess : List (String × Nat)) (s : String) (n : Nat),
        (touchSession sess s n).map Prod.fst = sess.map Prod.fst)
    ∧ (∀ (sess : List (String × Nat)) (sid : Option String) (c : Bool) (n : Nat),
        (pingSessions c sess sid n).map Prod.fst = sess.map Prod.fst) :=
  c4_ping_fast_path true SrvState.initial [] ⟨"session/ping", some "S1"⟩ benignEnv rfl

/-- C5: if, at the finishing stage, a non-handshake call is still flagged as
requiring initialization after the compatibility step, the router answers
with the structured "not initialized" protocol error carrying the assigned
session identifier both in the `Mcp-Session-Id` response header and in the
`error.data.sessionId` payload (first conjunct, about `finishRequest`, whose
`notInitialized` outcome records the header and payload ids).  Consequently
a non-handshake call with no session header either forwards to an
application result or returns that error carrying the freshly generated
identifier (second conjunct, for the full pipeline in concurrent mode). -/
theorem c5_not_initialized_carries_session_id (requireInit isInit : Bool) (t : Option Nat)
    (effId : String) (env : Env) (st : SrvState) (req : Request)
    (hflag : requireInit = true) (hni : isInit = false)
    (hping : isPingMethod req.method = false)
    (hsid : req.sessionId = none)
    (hinit : isInitializeRequest req = false)
    (hconn : env.connectThrows = false)
    (hfwd : env.forwardThrows = false) :
    finishRequest requireInit isInit t effId env
        = (Outcome.notInitialized effId effId, false)
    ∧ ((handleMCPRequest true st req env).outcome = Outcome.forwarded env.freshId
       ∨ (handleMCPRequest true st req env).outcome
           = Outcome.notInitialized env.freshId env.freshId) := by
  constructor
  · simp [finishRequest, hflag, hni]
  · left
    simp [handleMCPRequest, hping, hinit, routeConcurrent, hsid, openChannel_ok, hconn,
      finishRequest, hfwd]

/-- C5 witness: the finishing stage at a concrete unresolved non-handshake
exchange, and the full pipeline on a concrete call with no session header. -/
theorem c5_not_initialized_carries_session_id_witness :
    finishRequest true false (some 0) "S7" allFailEnv
        = (Outcome.notInitialized "S7" "S7", false)
    ∧ ((handleMCPRequest true SrvState.initial ⟨"tools/list", none⟩ allFailEnv).outcome
          = Outcome.forwarded allFailEnv.freshId
       ∨ (handleMCPRequest true SrvState.initial ⟨"tools/list", none⟩ allFailEnv).outcome
          = Outcome.notInitialized allFailEnv.freshId allFailEnv.freshId) :=
  c5_not_initialized_carries_session_id true false (some 0) "S7" allFailEnv
    SrvState.initial ⟨"tools/list", none⟩ rfl rfl rfl rfl rfl rfl rfl

/-- C6: the DELETE `/mcp` entry point.  If a live channel is registered for
the supplied identifier, it is closed, its mapping removed and the
live-connection counter decremented (clamped at zero, as in the source's
`Math.max(0, ...)`); if no live channel exists — including when no
identifier is supplied — the route answers the not-found outcome instead of
throwing. -/
theorem c6_delete_session_route (st : SrvState) (sid : Option String) :
    (∀ s cid, sid = some s → st.transports.lookup s = some cid →
        handleDeleteSession st sid
          = ({ st with
                transports := mapDelete st.transports s,
                connectionCount := max 0 (st.connectionCount - 1),
                closedChannels := cid :: st.closedChannels }, DeleteOutcome.closed))
    ∧ ((∀ s, sid = some s → st.transports.lookup s = none) →
        handleDeleteSession st sid = (st, DeleteOutcome.notFound)) := by
  constructor
  · intro s cid hs hlk
    subst hs
    simp [handleDeleteSession, hlk]
  · intro h
    cases hs : sid with
    | none => simp [handleDeleteSession]
    | some s => simp [handleDeleteSession, h s hs]

/-- C6 witness: deleting a bound session removes it and decrements the
counter; deleting with an unknown identifier reports not-found. -/
theorem c6_delete_session_route_witness :
    handleDeleteSession oneSessionState (some "A")
      = (oneSessionStateClosed, DeleteOutcome.closed)
    ∧ handleDeleteSession SrvState.initial (some "missing")
      = (SrvState.initial, DeleteOutcome.notFound) := by
  constructor
  · exact (c6_delete_session_route oneSessionState (some "A")).1 "A" 7 rfl rfl
  · exact (c6_delete_session_route SrvState.initial (some "missing")).2
      (fun s hs => by cases hs; rfl)

/-- C9: a submitted task still pending (hence not yet completed) when its
timeout fires is failed with a timeout error and removed from the
pending-task map: the state gains exactly one timeout-failure completion for
the task and its entry is deleted, after which the task id no longer
resolves in the map (its per-task resource, the stored callback, is
released). -/
theorem c9_timeout_fails_and_removes (st : WMState) (tid : String) (s : String)
    (hpend : st.pendingTasks.lookup tid = some s)
    (hkeys : (st.pendingTasks.map Prod.fst).Nodup) :
    fireTaskTimeout st tid
      = { st with
            pendingTasks := mapDelete st.pendingTasks tid,
            completions := st.completions
              ++ [{ taskId := tid, success := false, viaTimeout := true }] }
    ∧ (fireTaskTimeout st tid).pendingTasks.lookup tid = none := by
  have heq : fireTaskTimeout st tid
      = { st with
            pendingTasks := mapDelete st.pendingTasks tid,
            completions := st.completions
              ++ [{ taskId := tid, success := false, viaTimeout := true }] } := by
    simp [fireTaskTimeout, hpend]
  refine ⟨heq, ?_⟩
  rw [heq]
  exact lookup_mapDelete_of_nodup st.pendingTasks tid hkeys

/-- C9 witness: a concrete pending task `t1` whose timeout fires. -/
theorem c9_timeout_fails_and_removes_witness :
    fireTaskTimeout { workers := ["A"], pendingTasks := [("t1", "A")], completions := [] } "t1"
      = { workers := ["A"],
          pendingTasks := mapDelete [("t1", "A")] "t1",
          completions := [{ taskId := "t1", success := false, viaTimeout := true }] }
    ∧ (fireTaskTimeout { workers := ["A"], pendingTasks := [("t1", "A")], completions := [] }
        "t1").pendingTasks.lookup "t1" = none :=
  c9_timeout_fails_and_removes
    { workers := ["A"], pendingTasks := [("t1", "A")], completions := [] } "t1" "A"
    rfl (by decide)

theorem openChannel_count (st : SrvState) (s : String) (env : Env) (ri : Bool) :
    (openChannel st s env ri).state.connectionCount = st.connectionCount
    ∨ (openChannel st s env ri).state.connectionCount = st.connectionCount + 1 := by
  cases h : env.connectThrows <;>
    simp [openChannel, h, advanceChannel, bindTransport]

theorem routeConcurrent_count (st : SrvState) (req : Request) (env : Env) :
    (routeConcurrent st req env).state.connectionCount = st.connectionCount
    ∨ (routeConcurrent st req env).state.connectionCount = st.connectionCount + 1 := by
  unfold routeConcurrent
  cases hsid : req.sessionId with
  | some s =>
    cases hlk : st.transports.lookup s with
    | some cid =>
      simp [hlk, (getOrCreateServer_frame st s).2.2.2.2]
    | none =>
      cases hinit : isInitializeRequest req with
      | true =>
        have h1 := openChannel_count
          (getOrCreateServer { st with sessions := getOrCreateSession st.sessions s env.now } s)
          s env false
        simpa [hlk, hinit, (getOrCreateServer_frame
          { st with sessions := getOrCreateSession st.sessions s env.now } s).2.2.2.2]
          using h1
      | false =>
        have h1 := openChannel_count (getOrCreateServer st s) s env true
        simpa [hlk, hinit, (getOrCreateServer_frame st s).2.2.2.2] using h1
  | none =>
    cases hinit : isInitializeRequest req with
    | false =>
      have h1 := openChannel_count (getOrCreateServer st env.freshId) env.freshId env true
      simpa [hinit, (getOrCreateServer_frame st env.freshId).2.2.2.2] using h1
    | true =>
      have h1 := openChannel_count (getOrCreateServer st env.freshId) env.freshId env false
      cases hthrew : (openChannel (getOrCreateServer st env.freshId) env.freshId env
          false).threw <;>
        simpa [hinit, hthrew, (getOrCreateServer_frame st env.freshId).2.2.2.2] using h1

theorem routeSingle_count (st : SrvState) (req : Request) (env : Env) :
    (routeSingle st req env).state.connectionCount = st.connectionCount
    ∨ (routeSingle st req env).state.connectionCount = st.connectionCount + 1 := by
  unfold routeSingle
  cases hsid : req.sessionId with
  | some s =>
    cases hlk : st.transports.lookup s with
    | some cid => simp [hlk]
    | none =>
      cases hinit : isInitializeRequest req <;>
        simp [hlk, hinit, openChannel_count st s env]
  | none =>
    cases hinit : isInitializeRequest req <;>
      simp [hinit, openChannel_count st env.freshId env]

theorem handleMCPRequest_count (c : Bool) (st : SrvState) (req : Request) (env : Env) :
    (handleMCPRequest c st req env).state.connectionCount = st.connectionCount
    ∨ (handleMCPRequest c st req env).state.connectionCount = st.connectionCount + 1 := by
  cases hping : isPingMethod req.method with
  | true => simp [handleMCPRequest, hping]
  | false =>
    have hstate : (handleMCPRequest c st req env).state
        = (if c then routeConcurrent st req env else routeSingle st req env).state := by
      unfold handleMCPRequest
      simp only [hping, Bool.false_eq_true, if_false]
      split
      · split
        · rfl
        · split <;> rfl
      · split
        · rfl
        · split <;> rfl
    rw [hstate]
    cases c
    · simpa using routeSingle_count st req env
    · simpa using routeConcurrent_count st req env

theorem applyEvent_count_nonneg (st : SrvState) (e : SrvEvent)
    (h : 0 ≤ st.connectionCount) : 0 ≤ (applyEvent st e).connectionCount := by
  cases e with
  | request c r env =>
    rcases handleMCPRequest_count c st r env with h1 | h1 <;>
      simp only [applyEvent, h1] <;> omega
  | deleteSession s =>
    cases s with
    | none => simpa [applyEvent, handleDeleteSession] using h
    | some s =>
      cases hlk : st.transports.lookup s <;>
        simp [applyEvent, handleDeleteSession, hlk, h, le_max_left]
  | transportClosed s =>
    by_cases hlk : (st.transports.lookup s).isSome <;>
      simp [applyEvent, onTransportClosed, hlk, h, le_max_left]
  | transportError s =>
    by_cases hlk : (st.transports.lookup s).isSome <;>
      simp [applyEvent, onTransportError, hlk, h, le_max_left]
  | sessionEvicted s =>
    cases hlk : st.transports.lookup s <;>
      simp [applyEvent, onSessionEvicted, hlk, h, le_max_left]
  | stop => simp [applyEvent, stopServer]

/-- C10: the live-connection counter is never negative.  Starting from the
freshly constructed server, any sequence of HTTP requests (channel binds),
explicit session deletes, transport close/error notifications, session
evictions and server stops leaves `connectionCount ≥ 0`: each decrement is
clamped at zero (`Math.max(0, ...)`) and `stop` resets the counter to
zero. -/
theorem c10_connection_count_nonneg (es : List SrvEvent) :
    0 ≤ (applyEvents SrvState.initial es).connectionCount := by
  have key : ∀ (l : List SrvEvent) (st : SrvState), 0 ≤ st.connectionCount →
      0 ≤ (applyEvents st l).connectionCount := by
    intro l
    induction l with
    | nil => intro st h; simpa [applyEvents] using h
    | cons e es ih => intro st h; exact ih _ (applyEvent_count_nonneg st e h)
  exact key es SrvState.initial (by simp [SrvState.initial])

end ObsidianMCP
